import Mathlib

/-!
Verification of the asynchronous audio-generation pipeline of the
`podcastify` web application.

The definitions below are shallow embeddings of the TypeScript source:

* `sentenceSplit` / `chunkText`  — `chunkText` in `src/lib/inngest/functions.ts`
* `generateTTSWithGemini`        — the retrying synthesis client in
  `src/lib/inngest/functions.ts`
* `pcmToWav`                     — the WAV container writer in
  `src/lib/inngest/functions.ts`
* `mergeBuffers`                 — the merge step of
  `src/app/api/merge-audio/route.ts`
* `createJob` / `applyUpdate`    — `src/lib/jobs-store.ts`
* `AudioStorageManager` functions — the storage tiering module
* `ttsAsyncPost`                 — the generate endpoint (POST /api/tts-async)

Strings of the source are modelled as `List Char`, byte buffers as
`List Nat` (each entry one byte), timestamps as `Nat` milliseconds.
-/

/-! ## Text chunker (`chunkText`, src/lib/inngest/functions.ts lines 7-30) -/

/-- Sentence-terminal punctuation, the character class `[.!?]` of the
regex used by `chunkText`. -/
def isTerm (c : Char) : Bool :=
  c = '.' || c = '!' || c = '?'

/-- Whitespace recognised by JavaScript `String.prototype.trim` (restricted
to the ASCII whitespace actually occurring in text). -/
def isWs (c : Char) : Bool :=
  c = ' ' || c = '\t' || c = '\n' || c = '\r'

/-- JavaScript `str.trim()`: remove leading and trailing whitespace. -/
def jsTrim (l : List Char) : List Char :=
  ((l.dropWhile isWs).reverse.dropWhile isWs).reverse

/-- One pass of the global regex match `text.match(/[^.!?]+[.!?]+/g)`.
`cur` is the reversed accumulator for the match being built and `inTerm`
records whether the last character consumed was a terminator, i.e. whether
`cur` already is a complete match.  A terminator with no preceding body is
skipped (it cannot start a match); a trailing body without a terminator is
dropped (the regex requires at least one terminator). -/
def regexMatchesGo : List Char → List Char → Bool → List (List Char)
  | [], cur, inTerm => if inTerm then [cur.reverse] else []
  | c :: rest, cur, inTerm =>
    if isTerm c then
      if cur.isEmpty then
        regexMatchesGo rest [] false
      else
        regexMatchesGo rest (c :: cur) true
    else
      if inTerm then
        cur.reverse :: regexMatchesGo rest [c] false
      else
        regexMatchesGo rest (c :: cur) false

/-- `text.match(/[^.!?]+[.!?]+/g) || [text]`: the list of maximal runs of
non-terminators followed by a maximal run of terminators; if there is no
match at all the whole text is used as the single sentence. -/
def sentenceSplit (text : List Char) : List (List Char) :=
  match regexMatchesGo text [] false with
  | [] => [text]
  | ms => ms

/-- The sentence-accumulation loop of `chunkText` (lines 12-27): greedy
bin packing of sentences into chunks of at most `maxLength` characters,
with `currentChunk` the running accumulator. -/
def chunkLoop (sentences : List (List Char)) (currentChunk : List Char)
    (maxLength : Nat) : List (List Char) :=
  match sentences with
  | [] => if currentChunk.isEmpty then [] else [jsTrim currentChunk]
  | sentence :: rest =>
    if (currentChunk ++ sentence).length > maxLength then
      if currentChunk.isEmpty then
        jsTrim sentence :: chunkLoop rest [] maxLength
      else
        jsTrim currentChunk :: chunkLoop rest sentence maxLength
    else
      chunkLoop rest (currentChunk ++ sentence) maxLength

/-- `chunkText(text, maxLength)` from src/lib/inngest/functions.ts. -/
def chunkText (text : List Char) (maxLength : Nat) : List (List Char) :=
  chunkLoop (sentenceSplit text) [] maxLength

/-- The non-whitespace content of a character list; used to compare texts
up to whitespace. -/
def stripWs (l : List Char) : List Char :=
  l.filter (fun c => !(isWs c))

/-- Joining a list of chunks with single spaces, the concatenation the
spec describes for reassembling chunker output. -/
def joinSpace : List (List Char) → List Char
  | [] => []
  | [c] => c
  | c :: rest => c ++ ' ' :: joinSpace rest

lemma dropWhile_length_le (p : Char → Bool) (l : List Char) :
    (l.dropWhile p).length ≤ l.length := by
  induction l with
  | nil => simp
  | cons c rest ih =>
    by_cases h : p c
    · simp only [List.dropWhile_cons, h, if_pos]
      exact le_trans ih (by simp)
    · simp [List.dropWhile_cons, h]

lemma jsTrim_length_le (l : List Char) : (jsTrim l).length ≤ l.length := by
  have h1 := dropWhile_length_le isWs l
  have h2 := dropWhile_length_le isWs (l.dropWhile isWs).reverse
  simp only [jsTrim, List.length_reverse]
  simp only [List.length_reverse] at h2
  omega

lemma stripWs_append (a b : List Char) :
    stripWs (a ++ b) = stripWs a ++ stripWs b := by
  simp [stripWs, List.filter_append]

lemma stripWs_dropWhile_ws (l : List Char) :
    stripWs (l.dropWhile isWs) = stripWs l := by
  induction l with
  | nil => rfl
  | cons c rest ih =>
    by_cases h : isWs c = true
    · simp [List.dropWhile_cons, h, stripWs, List.filter_cons] at ih ⊢
      simpa [stripWs, h] using ih
    · simp [List.dropWhile_cons, h]

lemma stripWs_reverse (l : List Char) :
    stripWs l.reverse = (stripWs l).reverse := by
  simp [stripWs, List.filter_reverse]

lemma stripWs_jsTrim (l : List Char) : stripWs (jsTrim l) = stripWs l := by
  simp [jsTrim, stripWs_reverse, stripWs_dropWhile_ws]

lemma stripWs_joinSpace (L : List (List Char)) :
    stripWs (joinSpace L) = stripWs L.flatten := by
  induction L with
  | nil => rfl
  | cons c rest ih =>
    cases rest with
    | nil => simp [joinSpace]
    | cons d rest2 =>
      have : joinSpace (c :: d :: rest2) = c ++ ' ' :: joinSpace (d :: rest2) := rfl
      rw [this, List.flatten_cons, stripWs_append, stripWs_append]
      have hsp : stripWs (' ' :: joinSpace (d :: rest2))
          = stripWs (joinSpace (d :: rest2)) := by
        simp [stripWs, List.filter_cons, isWs]
      rw [hsp, ih]

/-- Invariant of the chunk-accumulation loop: every produced chunk is
within the limit or is the trim of a single oversized sentence of `S`. -/
lemma chunkLoop_bounded (S : List (List Char)) (maxLength : Nat) :
    ∀ (ss : List (List Char)) (cur : List Char),
      (∀ s ∈ ss, s ∈ S) →
      (cur.length ≤ maxLength ∨ cur ∈ S) →
      ∀ c ∈ chunkLoop ss cur maxLength,
        c.length ≤ maxLength ∨
          ∃ s ∈ S, c = jsTrim s ∧ maxLength < s.length := by
  intro ss
  induction ss with
  | nil =>
    intro cur _ hcur c hc
    simp only [chunkLoop] at hc
    by_cases he : cur.isEmpty
    · simp [he] at hc
    · simp [he] at hc
      subst hc
      rcases hcur with h | h
      · exact Or.inl (le_trans (jsTrim_length_le cur) h)
      · by_cases hlen : cur.length ≤ maxLength
        · exact Or.inl (le_trans (jsTrim_length_le cur) hlen)
        · exact Or.inr ⟨cur, h, rfl, by omega⟩
  | cons s rest ih =>
    intro cur hss hcur c hc
    have hsS : s ∈ S := hss s (List.mem_cons_self s rest)
    have hrest : ∀ t ∈ rest, t ∈ S := fun t ht => hss t (List.mem_cons_of_mem s ht)
    simp only [chunkLoop] at hc
    by_cases hover : (cur ++ s).length > maxLength
    · simp only [hover, if_pos] at hc
      by_cases he : cur.isEmpty
      · simp only [he, if_pos] at hc
        rcases List.mem_cons.mp hc with hhead | htail
        · subst hhead
          have hcurnil : cur = [] := List.isEmpty_iff.mp he
          have hslen : maxLength < s.length := by
            simp [hcurnil] at hover; omega
          exact Or.inr ⟨s, hsS, rfl, hslen⟩
        · exact ih [] hrest (Or.inl (by simp)) c htail
      · simp only [he, if_neg, Bool.false_eq_true, not_false_iff] at hc
        rcases List.mem_cons.mp hc with hhead | htail
        · subst hhead
          rcases hcur with h | h
          · exact Or.inl (le_trans (jsTrim_length_le cur) h)
          · by_cases hlen : cur.length ≤ maxLength
            · exact Or.inl (le_trans (jsTrim_length_le cur) hlen)
            · exact Or.inr ⟨cur, h, rfl, by omega⟩
        · exact ih s hrest (Or.inr hsS) c htail
    · simp only [hover, if_neg, not_false_iff] at hc
      have : (cur ++ s).length ≤ maxLength := by omega
      exact ih (cur ++ s) hrest (Or.inl this) c hc

/-- Non-whitespace content is preserved by the chunk loop. -/
lemma chunkLoop_stripWs (maxLength : Nat) :
    ∀ (ss : List (List Char)) (cur : List Char),
      stripWs (chunkLoop ss cur maxLength).flatten
        = stripWs cur ++ stripWs ss.flatten := by
  intro ss
  induction ss with
  | nil =>
    intro cur
    by_cases he : cur.isEmpty
    · have : cur = [] := List.isEmpty_iff.mp he
      simp [chunkLoop, he, this, stripWs]
    · simp only [chunkLoop, he, Bool.false_eq_true, if_neg, not_false_iff]
      rw [List.flatten_cons, List.flatten_nil, List.append_nil, stripWs_jsTrim]
      simp [stripWs]
  | cons s rest ih =>
    intro cur
    simp only [chunkLoop]
    by_cases hover : (cur ++ s).length > maxLength
    · simp only [hover, if_pos]
      by_cases he : cur.isEmpty
      · have hcurnil : cur = [] := List.isEmpty_iff.mp he
        simp only [he, if_pos]
        rw [List.flatten_cons, stripWs_append, stripWs_jsTrim, ih []]
        simp [hcurnil, stripWs_append, stripWs]
      · simp only [he, Bool.false_eq_true, if_neg, not_false_iff]
        rw [List.flatten_cons, stripWs_append, stripWs_jsTrim, ih s]
        rw [List.flatten_cons, stripWs_append]
    · simp only [hover, if_neg, not_false_iff]
      rw [ih (cur ++ s), List.flatten_cons, stripWs_append, stripWs_append,
        List.append_assoc]

/-- C4: every chunk produced by `chunkText` has length at most `maxLength`,
except that a chunk may be the (trimmed) copy of a single sentence whose own
length exceeds `maxLength`; and empty input yields the empty chunk list. -/
theorem chunkText_bounded (text : List Char) (maxLength : Nat) :
    chunkText [] maxLength = [] ∧
    ∀ c ∈ chunkText text maxLength,
      c.length ≤ maxLength ∨
        ∃ s ∈ sentenceSplit text, c = jsTrim s ∧ maxLength < s.length := by
  constructor
  · simp [chunkText, sentenceSplit, regexMatchesGo, chunkLoop]
  · intro c hc
    exact chunkLoop_bounded (sentenceSplit text) maxLength (sentenceSplit text) []
      (fun s hs => hs) (Or.inl (by simp)) c hc

/-- C4 witness: concrete instantiation of `chunkText_bounded`. -/
theorem chunkText_bounded_witness :
    chunkText [] 7 = [] ∧
    ∀ c ∈ chunkText "Aa. Bb. Cc.".toList 7,
      c.length ≤ 7 ∨
        ∃ s ∈ sentenceSplit "Aa. Bb. Cc.".toList, c = jsTrim s ∧ 7 < s.length :=
  chunkText_bounded "Aa. Bb. Cc.".toList 7

/-- C5 counterexample: text after the last sentence terminator is dropped by
the chunker, so concatenating the chunks does not reproduce the input text:
for the input "Hi. Yo" the character Y occurs in the (whitespace-stripped)
input but in no chunk. -/
theorem chunkText_drops_trailing_fragment :
    'Y' ∈ stripWs "Hi. Yo".toList ∧
      'Y' ∉ joinSpace (chunkText "Hi. Yo".toList 5000) := by
  decide

/-- C5 (amended): concatenating the chunks with single spaces reproduces,
up to whitespace, the concatenation of the sentences extracted by the
chunker regex (not the full input text: a trailing fragment with no
sentence-terminal punctuation is dropped). -/
theorem chunkText_preserves_sentences (text : List Char) (maxLength : Nat) :
    stripWs (joinSpace (chunkText text maxLength))
      = stripWs (sentenceSplit text).flatten := by
  rw [stripWs_joinSpace, chunkText, chunkLoop_stripWs]
  simp [stripWs]

example : chunkText "Hi. Yo".toList 5000 = ["Hi.".toList] := by decide

example : chunkText [] 5000 = [] := by decide

example : chunkText "Aa. Bb. Cc.".toList 7 = ["Aa. Bb.".toList, "Cc.".toList] := by
  decide

/-! ## Synthesis client (`generateTTSWithGemini`, src/lib/inngest/functions.ts
lines 32-112)

The embedding replaces the network by an oracle `Nat → TtsResponse` giving
the provider's response to each attempt (attempt `n` is the call with
`retryCount = n`).  The function returns the final outcome together with the
list of backoff delays (in milliseconds) it slept, one entry per retry. -/

/-- Outcome of one `fetch` of the Gemini TTS endpoint, as the source
distinguishes the cases:
* `httpError status body` — `response.ok` false (lines 71-82);
* `invalidFormat` — 200 response whose JSON lacks
  `candidates[0].content` (line 86);
* `noAudio` — candidates present but no part with audio `inlineData`
  (line 94);
* `fetchError msg` — the fetch or JSON parsing itself threw;
* `ok audioData mimeType` — a usable audio payload (line 102). -/
inductive TtsResponse where
  | httpError (status : Nat) (body : String)
  | invalidFormat
  | noAudio
  | fetchError (msg : String)
  | ok (audioData : List Nat) (mimeType : String)
deriving DecidableEq, Repr

/-- The message of the error thrown for a non-OK HTTP response (line 81). -/
def httpErrMsg (status : Nat) (body : String) : String :=
  "Gemini TTS API error: " ++ toString status ++ " - " ++ body

/-- The recursive retry body of `generateTTSWithGemini`.  The first branch
of `httpError` is the explicit transient-retry path of line 74 (status 500
or 503 and retries left); every other thrown error is caught by the
surrounding `catch` of line 103, which also retries while `retryCount <
maxRetries` and rethrows the error once retries are exhausted.  The second
component collects the delays `2 ^ retryCount * 1000` slept before each
retry (lines 75 and 105). -/
def genTTSGo (oracle : Nat → TtsResponse) (maxRetries retryCount : Nat) :
    Except String (List Nat × String) × List Nat :=
  match oracle retryCount with
  | .httpError status body =>
    if h : (status = 500 ∨ status = 503) ∧ retryCount < maxRetries then
      let rest := genTTSGo oracle maxRetries (retryCount + 1)
      (rest.1, 2 ^ retryCount * 1000 :: rest.2)
    else if h2 : retryCount < maxRetries then
      let rest := genTTSGo oracle maxRetries (retryCount + 1)
      (rest.1, 2 ^ retryCount * 1000 :: rest.2)
    else
      (.error (httpErrMsg status body), [])
  | .invalidFormat =>
    if h : retryCount < maxRetries then
      let rest := genTTSGo oracle maxRetries (retryCount + 1)
      (rest.1, 2 ^ retryCount * 1000 :: rest.2)
    else
      (.error "Invalid response format from Gemini TTS API", [])
  | .noAudio =>
    if h : retryCount < maxRetries then
      let rest := genTTSGo oracle maxRetries (retryCount + 1)
      (rest.1, 2 ^ retryCount * 1000 :: rest.2)
    else
      (.error "No audio data found in response", [])
  | .fetchError msg =>
    if h : retryCount < maxRetries then
      let rest := genTTSGo oracle maxRetries (retryCount + 1)
      (rest.1, 2 ^ retryCount * 1000 :: rest.2)
    else
      (.error msg, [])
  | .ok audioData mimeType => (.ok (audioData, mimeType), [])
termination_by maxRetries - retryCount
decreasing_by
  all_goals omega

/-- `generateTTSWithGemini(text, language, retryCount, maxRetries)`: the
missing-API-key check of line 40 precedes any request and throws without
retrying. -/
def generateTTSWithGemini (apiKeySet : Bool) (oracle : Nat → TtsResponse)
    (retryCount maxRetries : Nat) :
    Except String (List Nat × String) × List Nat :=
  if apiKeySet = false then
    (.error "GEMINI_API_KEY environment variable is not set", [])
  else
    genTTSGo oracle maxRetries retryCount

lemma genTTSGo_httpError_retry (oracle : Nat → TtsResponse)
    (maxRetries retryCount status : Nat) (body : String)
    (h : oracle retryCount = .httpError status body)
    (hlt : retryCount < maxRetries) :
    genTTSGo oracle maxRetries retryCount =
      ((genTTSGo oracle maxRetries (retryCount + 1)).1,
        2 ^ retryCount * 1000 :: (genTTSGo oracle maxRetries (retryCount + 1)).2) := by
  conv_lhs => rw [genTTSGo.eq_def]
  rw [h]
  dsimp only
  by_cases hs : status = 500 ∨ status = 503
  · rw [dif_pos ⟨hs, hlt⟩]
  · rw [dif_neg (fun hc => hs hc.1), dif_pos hlt]

lemma genTTSGo_httpError_exhausted (oracle : Nat → TtsResponse)
    (maxRetries retryCount status : Nat) (body : String)
    (h : oracle retryCount = .httpError status body)
    (hge : ¬ retryCount < maxRetries) :
    genTTSGo oracle maxRetries retryCount = (.error (httpErrMsg status body), []) := by
  conv_lhs => rw [genTTSGo.eq_def]
  rw [h]
  dsimp only
  rw [dif_neg (fun hc => hge hc.2), dif_neg hge]

lemma genTTSGo_noAudio_retry (oracle : Nat → TtsResponse)
    (maxRetries retryCount : Nat)
    (h : oracle retryCount = .noAudio)
    (hlt : retryCount < maxRetries) :
    genTTSGo oracle maxRetries retryCount =
      ((genTTSGo oracle maxRetries (retryCount + 1)).1,
        2 ^ retryCount * 1000 :: (genTTSGo oracle maxRetries (retryCount + 1)).2) := by
  conv_lhs => rw [genTTSGo.eq_def]
  rw [h]
  dsimp only
  rw [dif_pos hlt]

lemma genTTSGo_noAudio_exhausted (oracle : Nat → TtsResponse)
    (maxRetries retryCount : Nat)
    (h : oracle retryCount = .noAudio)
    (hge : ¬ retryCount < maxRetries) :
    genTTSGo oracle maxRetries retryCount =
      (.error "No audio data found in response", []) := by
  conv_lhs => rw [genTTSGo.eq_def]
  rw [h]
  dsimp only
  rw [dif_neg hge]

/-- C1 counterexample: on a response with a missing audio payload (an
otherwise-successful response), the client does NOT propagate immediately:
it performs three retries with backoff delays 1000, 2000, 4000 ms before
surfacing the error, so the retry-delay list is not empty. -/
theorem malformedResponse_is_retried :
    generateTTSWithGemini true (fun _ => TtsResponse.noAudio) 0 3
        = (.error "No audio data found in response", [1000, 2000, 4000]) ∧
      (generateTTSWithGemini true (fun _ => TtsResponse.noAudio) 0 3).2 ≠ [] := by
  have h3 := genTTSGo_noAudio_exhausted (fun _ => TtsResponse.noAudio) 3 3 rfl
    (by omega)
  have h2 := genTTSGo_noAudio_retry (fun _ => TtsResponse.noAudio) 3 2 rfl
    (by omega)
  have h1 := genTTSGo_noAudio_retry (fun _ => TtsResponse.noAudio) 3 1 rfl
    (by omega)
  have h0 := genTTSGo_noAudio_retry (fun _ => TtsResponse.noAudio) 3 0 rfl
    (by omega)
  rw [h3] at h2
  rw [h2] at h1
  rw [h1] at h0
  constructor
  · simp only [generateTTSWithGemini, Bool.true_eq_false, if_neg, not_false_iff]
    rw [h0]
    norm_num
  · simp only [generateTTSWithGemini, Bool.true_eq_false, if_neg, not_false_iff]
    rw [h0]
    simp

/-- C1 (amended): a malformed or permanent error response is retried with
the same exponential backoff as a transient error, up to the retry ceiling,
and only then surfaced; only the missing-API-key configuration error
propagates immediately with zero retries. -/
theorem malformedResponse_retry_behaviour (oracle : Nat → TtsResponse)
    (hmal : ∀ n, oracle n = TtsResponse.noAudio) :
    generateTTSWithGemini true oracle 0 3
        = (.error "No audio data found in response", [1000, 2000, 4000]) ∧
      ∀ o2 : Nat → TtsResponse,
        generateTTSWithGemini false o2 0 3
          = (.error "GEMINI_API_KEY environment variable is not set", []) := by
  constructor
  · have h3 := genTTSGo_noAudio_exhausted oracle 3 3 (hmal 3) (by omega)
    have h2 := genTTSGo_noAudio_retry oracle 3 2 (hmal 2) (by omega)
    have h1 := genTTSGo_noAudio_retry oracle 3 1 (hmal 1) (by omega)
    have h0 := genTTSGo_noAudio_retry oracle 3 0 (hmal 0) (by omega)
    rw [h3] at h2
    rw [h2] at h1
    rw [h1] at h0
    simp only [generateTTSWithGemini, Bool.true_eq_false, if_neg, not_false_iff]
    rw [h0]
    norm_num
  · intro o2
    simp [generateTTSWithGemini]

/-- C1 amended witness: instantiation at the constantly-malformed oracle. -/
theorem malformedResponse_retry_behaviour_witness :
    generateTTSWithGemini true (fun _ => TtsResponse.noAudio) 0 3
        = (.error "No audio data found in response", [1000, 2000, 4000]) ∧
      ∀ o2 : Nat → TtsResponse,
        generateTTSWithGemini false o2 0 3
          = (.error "GEMINI_API_KEY environment variable is not set", []) :=
  malformedResponse_retry_behaviour (fun _ => TtsResponse.noAudio)
    (fun _ => rfl)

/-- C6: when every attempt gets a transient server error (HTTP 500 or 503),
the client retries exactly up to the ceiling of 3 retries with backoff
delays 1000, 2000, 4000 ms, and the error finally surfaced is the one of
the most recent (fourth) attempt. -/
theorem transientError_retries_with_backoff (oracle : Nat → TtsResponse)
    (bodies : Nat → String) (statuses : Nat → Nat)
    (hstat : ∀ n, statuses n = 500 ∨ statuses n = 503)
    (hresp : ∀ n, oracle n = TtsResponse.httpError (statuses n) (bodies n)) :
    generateTTSWithGemini true oracle 0 3
      = (.error (httpErrMsg (statuses 3) (bodies 3)), [1000, 2000, 4000]) := by
  have h3 := genTTSGo_httpError_exhausted oracle 3 3 (statuses 3) (bodies 3)
    (hresp 3) (by omega)
  have h2 := genTTSGo_httpError_retry oracle 3 2 (statuses 2) (bodies 2)
    (hresp 2) (by omega)
  have h1 := genTTSGo_httpError_retry oracle 3 1 (statuses 1) (bodies 1)
    (hresp 1) (by omega)
  have h0 := genTTSGo_httpError_retry oracle 3 0 (statuses 0) (bodies 0)
    (hresp 0) (by omega)
  rw [h3] at h2
  rw [h2] at h1
  rw [h1] at h0
  simp only [generateTTSWithGemini, Bool.true_eq_false, if_neg, not_false_iff]
  rw [h0]
  norm_num

/-- C6 witness: instantiation at an oracle answering 503 on every attempt. -/
theorem transientError_retries_with_backoff_witness :
    generateTTSWithGemini true
        (fun _ => TtsResponse.httpError 503 "overloaded") 0 3
      = (.error (httpErrMsg 503 "overloaded"), [1000, 2000, 4000]) :=
  transientError_retries_with_backoff
    (fun _ => TtsResponse.httpError 503 "overloaded")
    (fun _ => "overloaded") (fun _ => 503)
    (fun _ => Or.inr rfl) (fun _ => rfl)

/-! ## WAV container writer (`pcmToWav`, src/lib/inngest/functions.ts
lines 114-158)

Byte buffers are lists of `Nat` (one entry per byte).  The source writes
into a zero-initialised 44-byte header at fixed offsets 0, 4, 8, 12, 16,
20, 22, 24, 28, 32, 34, 36, 40 which tile the header exactly, so the
buffer equals the concatenation of the written fields followed by the PCM
payload copied at offset 44. -/

/-- `buffer.writeUInt16LE(value, offset)`: the two little-endian bytes. -/
def u16le (v : Nat) : List Nat :=
  [v % 256, v / 256 % 256]

/-- `buffer.writeUInt32LE(value, offset)`: the four little-endian bytes. -/
def u32le (v : Nat) : List Nat :=
  [v % 256, v / 256 % 256, v / 65536 % 256, v / 16777216 % 256]

/-- `buffer.write(str, offset, len, "ascii")`: the character codes. -/
def asciiBytes (s : String) : List Nat :=
  s.toList.map Char.toNat

/-- Decoder for a little-endian 16-bit field at byte offset `off`. -/
def readU16le (bytes : List Nat) (off : Nat) : Nat :=
  bytes.getD off 0 + 256 * bytes.getD (off + 1) 0

/-- Decoder for a little-endian 32-bit field at byte offset `off`. -/
def readU32le (bytes : List Nat) (off : Nat) : Nat :=
  bytes.getD off 0 + 256 * bytes.getD (off + 1) 0
    + 65536 * bytes.getD (off + 2) 0 + 16777216 * bytes.getD (off + 3) 0

/-- `pcmToWav(pcmBuffer, sampleRate, channels, bitsPerSample)`: the RIFF/WAVE
header followed by the PCM payload verbatim.  The data-size field written at
offset 40 is clamped to `0xffffffff` (line 152). -/
def pcmToWav (pcmBuffer : List Nat) (sampleRate channels bitsPerSample : Nat) :
    List Nat :=
  let byteRate := sampleRate * channels * bitsPerSample / 8
  let blockAlign := channels * bitsPerSample / 8
  let dataSize := pcmBuffer.length
  let fileSize := 36 + dataSize
  asciiBytes "RIFF" ++ u32le fileSize ++ asciiBytes "WAVE" ++ asciiBytes "fmt "
    ++ u32le 16 ++ u16le 1 ++ u16le channels ++ u32le sampleRate
    ++ u32le byteRate ++ u16le blockAlign ++ u16le bitsPerSample
    ++ asciiBytes "data"
    ++ u32le (if dataSize > 0xffffffff then 0xffffffff else dataSize)
    ++ pcmBuffer

lemma readU32le_u32le_append (v : Nat) (tail : List Nat) (hv : v < 4294967296) :
    readU32le (u32le v ++ tail) 0 = v := by
  simp only [readU32le, u32le, List.cons_append, List.nil_append,
    List.getD_cons_zero, List.getD_cons_succ]
  omega

lemma readU16le_u16le_append (v : Nat) (tail : List Nat) (hv : v < 65536) :
    readU16le (u16le v ++ tail) 0 = v := by
  simp only [readU16le, u16le, List.cons_append, List.nil_append,
    List.getD_cons_zero, List.getD_cons_succ]
  omega

/-- C2: for valid parameters the WAV writer emits exactly `44 + len` bytes;
the header fields at the standard offsets decode back to the sample rate,
channel count, bits per sample, data length, byte rate
(`rate*channels*bits/8`) and block alignment (`channels*bits/8`); and the
bytes from offset 44 on are the PCM payload verbatim. -/
theorem pcmToWav_roundTrip (pcmBuffer : List Nat)
    (sampleRate channels bitsPerSample : Nat)
    (hrate : sampleRate < 4294967296)
    (hch : channels < 65536)
    (hbits : bitsPerSample < 65536)
    (hbyteRate : sampleRate * channels * bitsPerSample / 8 < 4294967296)
    (hblockAlign : channels * bitsPerSample / 8 < 65536)
    (hdata : 36 + pcmBuffer.length < 4294967296)
    (hdiv : 8 ∣ channels * bitsPerSample) :
    (pcmToWav pcmBuffer sampleRate channels bitsPerSample).length
        = 44 + pcmBuffer.length ∧
      readU32le (pcmToWav pcmBuffer sampleRate channels bitsPerSample) 4
        = 36 + pcmBuffer.length ∧
      readU16le (pcmToWav pcmBuffer sampleRate channels bitsPerSample) 22
        = channels ∧
      readU32le (pcmToWav pcmBuffer sampleRate channels bitsPerSample) 24
        = sampleRate ∧
      readU32le (pcmToWav pcmBuffer sampleRate channels bitsPerSample) 28
        = sampleRate * channels * bitsPerSample / 8 ∧
      readU16le (pcmToWav pcmBuffer sampleRate channels bitsPerSample) 32
        = channels * bitsPerSample / 8 ∧
      readU16le (pcmToWav pcmBuffer sampleRate channels bitsPerSample) 34
        = bitsPerSample ∧
      readU32le (pcmToWav pcmBuffer sampleRate channels bitsPerSample) 40
        = pcmBuffer.length ∧
      (pcmToWav pcmBuffer sampleRate channels bitsPerSample).drop 44
        = pcmBuffer := by
  have hclamp : (if pcmBuffer.length > 0xffffffff then 0xffffffff
      else pcmBuffer.length) = pcmBuffer.length := by
    rw [if_neg]
    omega
  refine ⟨?_, ?_, ?_, ?_, ?_, ?_, ?_, ?_, ?_⟩ <;>
    simp only [pcmToWav, hclamp, readU32le, readU16le, asciiBytes, u32le, u16le,
      String.toList, List.map_cons, List.map_nil, List.cons_append,
      List.nil_append, List.getD_cons_zero, List.getD_cons_succ,
      List.length_cons, List.length_append, List.drop_succ_cons,
      List.drop_zero]
  · omega
  · omega
  · omega
  · omega
  · omega
  · omega
  · omega
  · omega

/-- C2 witness: concrete instantiation of `pcmToWav_roundTrip` at a 3-byte
payload with the pipeline's default parameters (24000 Hz, mono, 16-bit). -/
theorem pcmToWav_roundTrip_witness :
    (pcmToWav [7, 8, 9] 24000 1 16).length = 44 + [7, 8, 9].length ∧
      readU32le (pcmToWav [7, 8, 9] 24000 1 16) 4 = 36 + [7, 8, 9].length ∧
      readU16le (pcmToWav [7, 8, 9] 24000 1 16) 22 = 1 ∧
      readU32le (pcmToWav [7, 8, 9] 24000 1 16) 24 = 24000 ∧
      readU32le (pcmToWav [7, 8, 9] 24000 1 16) 28 = 24000 * 1 * 16 / 8 ∧
      readU16le (pcmToWav [7, 8, 9] 24000 1 16) 32 = 1 * 16 / 8 ∧
      readU16le (pcmToWav [7, 8, 9] 24000 1 16) 34 = 16 ∧
      readU32le (pcmToWav [7, 8, 9] 24000 1 16) 40 = [7, 8, 9].length ∧
      (pcmToWav [7, 8, 9] 24000 1 16).drop 44 = [7, 8, 9] :=
  pcmToWav_roundTrip [7, 8, 9] 24000 1 16 (by decide) (by decide) (by decide)
    (by decide) (by decide) (by decide) (by decide)

/-! ## Audio merge (`POST`, src/app/api/merge-audio/route.ts lines 77-88)

The merge step once all input buffers have been read: a single input is
returned unchanged; otherwise the first buffer is kept whole and every
later buffer has its first 44 bytes (the WAV header) sliced off before
concatenation. -/

/-- The buffer concatenation of the merge route (lines 79-88). -/
def mergeBuffers (audioBuffers : List (List Nat)) : List Nat :=
  match audioBuffers with
  | [] => []
  | [b] => b
  | b :: rest => b ++ (rest.map (fun buf => buf.drop 44)).flatten

/-- C7: for two or more inputs the merged buffer is the first file in full
followed by each subsequent file with its first 44 bytes removed; when every
input is at least 44 bytes long its length is the first file's length plus
the sum of the later files' payload lengths (length minus 44). -/
lemma flatten_dropHeaders_length (rest : List (List Nat))
    (hlen : ∀ r ∈ rest, 44 ≤ r.length) :
    ((rest.map (fun buf => buf.drop 44)).flatten).length
      = (rest.map (fun r => r.length - 44)).sum := by
  induction rest with
  | nil => rfl
  | cons r rs ih =>
    simp only [List.map_cons, List.flatten_cons, List.length_append,
      List.sum_cons, List.length_drop]
    rw [ih (fun t ht => hlen t (List.mem_cons_of_mem r ht))]

theorem mergeBuffers_concat (b : List Nat) (rest : List (List Nat))
    (hne : rest ≠ []) :
    mergeBuffers (b :: rest) = b ++ (rest.map (fun buf => buf.drop 44)).flatten ∧
      ((∀ r ∈ rest, 44 ≤ r.length) →
        (mergeBuffers (b :: rest)).length
          = b.length + (rest.map (fun r => r.length - 44)).sum) := by
  have hshape : mergeBuffers (b :: rest)
      = b ++ (rest.map (fun buf => buf.drop 44)).flatten := by
    match rest, hne with
    | r :: rs, _ => rfl
  refine ⟨hshape, fun hlen => ?_⟩
  rw [hshape, List.length_append, flatten_dropHeaders_length rest hlen]

/-- C7 witness: merging three WAV files of sizes 1044, 2044 and 3044 bytes
yields exactly 44 + 1000 + 2000 + 3000 = 6044 bytes. -/
theorem mergeBuffers_concat_witness :
    (mergeBuffers
        [List.replicate 1044 0, List.replicate 2044 0, List.replicate 3044 0]).length
      = 6044 := by
  have h := mergeBuffers_concat (List.replicate 1044 0)
    [List.replicate 2044 0, List.replicate 3044 0] (List.cons_ne_nil _ _)
  have hlen := h.2 (by
    intro r hr
    rcases List.mem_cons.mp hr with h1 | h2
    · rw [h1, List.length_replicate]
      omega
    · rcases List.mem_cons.mp h2 with h3 | h4
      · rw [h3, List.length_replicate]
        omega
      · cases h4)
  rw [hlen]
  simp only [List.map_cons, List.map_nil, List.sum_cons, List.sum_nil,
    List.length_replicate]
  omega

/-! ## Job store (`src/lib/jobs-store.ts`) and the orchestrator's job
transitions (`generateAudioBackground`, src/lib/inngest/functions.ts
lines 171-306)

Timestamps are `Nat` milliseconds (the value of `Date.now()` /
`new Date()` at the moment of the call). -/

/-- The `status` field of an `AudioJob`. -/
inductive JobStatus where
  | pending
  | processing
  | completed
  | failed
deriving DecidableEq, Repr

/-- The `AudioJob` record of src/lib/jobs-store.ts. -/
structure AudioJob where
  id : String
  sessionId : String
  chapterId : String
  language : String
  status : JobStatus
  progress : Option Nat
  audioUrl : Option String
  error : Option String
  createdAt : Nat
  updatedAt : Nat
deriving DecidableEq, Repr

/-- A `Partial<AudioJob>` argument of `updateJob`: a field is `some v`
exactly when the update object carries that key. -/
structure JobUpdate where
  status : Option JobStatus := none
  progress : Option Nat := none
  audioUrl : Option String := none
  error : Option String := none
deriving DecidableEq, Repr

/-- `createJob(sessionId, chapterId, language)` (lines 19-32): a fresh
pending job whose id embeds the inputs and the creation time. -/
def createJob (sessionId chapterId language : String) (now : Nat) : AudioJob :=
  { id := sessionId ++ "-" ++ chapterId ++ "-" ++ language ++ "-" ++ toString now
    sessionId := sessionId
    chapterId := chapterId
    language := language
    status := .pending
    progress := none
    audioUrl := none
    error := none
    createdAt := now
    updatedAt := now }

/-- The merge `{...job, ...updates, updatedAt: new Date()}` performed by
`updateJob` (lines 38-42) on a job present in the store. -/
def applyUpdate (job : AudioJob) (u : JobUpdate) (now : Nat) : AudioJob :=
  { job with
    status := u.status.getD job.status
    progress := match u.progress with
      | some v => some v
      | none => job.progress
    audioUrl := match u.audioUrl with
      | some v => some v
      | none => job.audioUrl
    error := match u.error with
      | some v => some v
      | none => job.error
    updatedAt := now }

/-- The outcome of one run of `generateAudioBackground` for a job. -/
inductive RunOutcome where
  | cachedHit (url : String)
  | success (url : String)
  | failure (msg : String)
deriving DecidableEq, Repr

/-- The sequence of `updateJob` calls `generateAudioBackground` performs for
its job (with `jobId` set): first `{status: "processing"}` (line 181), then
either `{status: "completed", audioUrl}` on a cache hit (line 210) or after
generation succeeds (line 298), or `{status: "failed", error}` when the
generation step throws (line 285). -/
def orchestratorUpdates (o : RunOutcome) : List JobUpdate :=
  match o with
  | .cachedHit url => [{ status := some .processing },
      { status := some .completed, audioUrl := some url }]
  | .success url => [{ status := some .processing },
      { status := some .completed, audioUrl := some url }]
  | .failure msg => [{ status := some .processing },
      { status := some .failed, error := some msg }]

/-- The successive states a job passes through when the given updates are
applied at the given times. -/
def jobStates (job : AudioJob) :
    List JobUpdate → List Nat → List AudioJob
  | u :: us, t :: ts =>
    let j2 := applyUpdate job u t
    j2 :: jobStates j2 us ts
  | _, _ => []

/-- The full trace: initial state followed by every post-update state. -/
def jobTrace (job : AudioJob) (us : List JobUpdate) (ts : List Nat) :
    List AudioJob :=
  job :: jobStates job us ts

/-- C9 counterexample: two successive updates of the same job landing on the
same millisecond (here both at time 5) produce successive distinct states
with EQUAL `updatedAt`, refuting strict increase; the update sequence is the
orchestrator's own success path. -/
theorem jobTrace_equal_updatedAt :
    ((jobTrace (createJob "s" "c" "en" 0)
        (orchestratorUpdates (.success "/audio/a.wav")) [5, 5]).map
          (fun j => j.updatedAt)) = [0, 5, 5] ∧
      ((jobTrace (createJob "s" "c" "en" 0)
        (orchestratorUpdates (.success "/audio/a.wav")) [5, 5]).map
          (fun j => j.status)) = [.pending, .processing, .completed] := by
  decide

/-- C9 (amended): along every orchestrator update sequence, `updatedAt` is
non-decreasing on each transition — strictly increasing whenever the clock
strictly advances between updates — and every state of the trace has
`audioUrl` set exactly when its status is `completed`. -/
theorem jobTrace_monotone_and_audioUrl_iff (sessionId chapterId language : String)
    (t0 t1 t2 : Nat) (o : RunOutcome) (h01 : t0 ≤ t1) (h12 : t1 ≤ t2) :
    List.Chain' (fun a b => a.updatedAt ≤ b.updatedAt)
        (jobTrace (createJob sessionId chapterId language t0)
          (orchestratorUpdates o) [t1, t2]) ∧
      (t0 < t1 → t1 < t2 →
        List.Chain' (fun a b => a.updatedAt < b.updatedAt)
          (jobTrace (createJob sessionId chapterId language t0)
            (orchestratorUpdates o) [t1, t2])) ∧
      ∀ j ∈ jobTrace (createJob sessionId chapterId language t0)
          (orchestratorUpdates o) [t1, t2],
        j.audioUrl.isSome = true ↔ j.status = .completed := by
  cases o <;>
    simp [jobTrace, jobStates, orchestratorUpdates, applyUpdate, createJob,
      List.chain'_cons, h01, h12] <;>
    omega

/-- C9 amended witness: concrete instantiation on the success path with a
strictly advancing clock. -/
theorem jobTrace_monotone_and_audioUrl_iff_witness :
    List.Chain' (fun a b => a.updatedAt ≤ b.updatedAt)
        (jobTrace (createJob "s" "c" "en" 0)
          (orchestratorUpdates (.success "/audio/a.wav")) [1, 2]) ∧
      (0 < 1 → 1 < 2 →
        List.Chain' (fun a b => a.updatedAt < b.updatedAt)
          (jobTrace (createJob "s" "c" "en" 0)
            (orchestratorUpdates (.success "/audio/a.wav")) [1, 2])) ∧
      ∀ j ∈ jobTrace (createJob "s" "c" "en" 0)
          (orchestratorUpdates (.success "/audio/a.wav")) [1, 2],
        j.audioUrl.isSome = true ↔ j.status = .completed :=
  jobTrace_monotone_and_audioUrl_iff "s" "c" "en" 0 1 2
    (.success "/audio/a.wav") (by decide) (by decide)

/-! ## Storage tiering (`AudioStorageManager`, src/lib/audio-storage.ts)

The environment record carries the state the manager consults: the
deployment flags, the local cache directory, the remote blob store and the
outcomes of the fallible remote operations.  `Except.error` models a
thrown/rejected operation; a `catch` in the source maps it to the fallback
value. -/

/-- One object of the remote blob store, as returned by `list`. -/
structure Blob where
  pathname : String
  url : String
deriving DecidableEq, Repr

/-- The world `AudioStorageManager` runs against. -/
structure StorageEnv where
  /-- `process.env.VERCEL === '1' || process.env.VERCEL_ENV !== undefined`. -/
  isVercel : Bool
  /-- `!!process.env.BLOB_READ_WRITE_TOKEN`. -/
  hasBlobToken : Bool
  /-- `existsSync(AUDIO_DIR)`. -/
  localDirExists : Bool
  /-- `readdir(AUDIO_DIR)`: the file names, or a thrown error. -/
  localReaddir : Except String (List String)
  /-- `list({prefix, limit})`: the blobs of the remote store (a prefix query
  filters them), or a thrown error. -/
  remoteList : Except String (List Blob)
  /-- `head(blobUrl)`: size and upload time of the blob, or a thrown error. -/
  remoteHead : Except String (Nat × Nat)
  /-- `put(key, ...)`: the URL of the stored blob, or a thrown error. -/
  remotePut : Except String String
  /-- `Date.now()` at the write. -/
  now : Nat
deriving Repr

/-- The `StoredAudioInfo` result record of src/lib/audio-storage.ts. -/
structure StoredAudioInfo where
  url : String
  chapterId : String
  language : String
  cached : Bool
  size : Option Nat
  uploadedAt : Option Nat
deriving DecidableEq, Repr

/-- JavaScript `s.startsWith(pre)`, computed on the character lists. -/
def jsStartsWith (s pre : String) : Bool :=
  pre.toList.isPrefixOf s.toList

/-- JavaScript `s.endsWith(suf)`, computed on the character lists. -/
def jsEndsWith (s suf : String) : Bool :=
  suf.toList.isSuffixOf s.toList

/-- The filename predicate of `checkExistingAudioLocal` (lines 76-79):
deterministic `{chapterId}-{language}-` prefix and a recognised audio
extension. -/
def matchesAudioFile (chapterId language file : String) : Bool :=
  jsStartsWith file (chapterId ++ "-" ++ language ++ "-") &&
    (jsEndsWith file ".mp3" || jsEndsWith file ".wav" || jsEndsWith file ".ogg"
      || jsEndsWith file ".m4a")

/-- `checkExistingAudioLocal(chapterId, language)` (lines 60-90): scan the
local cache directory for a matching file; a missing directory or a failing
`readdir` yields `none`. -/
def checkExistingAudioLocal (env : StorageEnv) (chapterId language : String) :
    Option String :=
  if env.localDirExists = false then
    none
  else
    match env.localReaddir with
    | .error _ => none
    | .ok files =>
      match files.find? (matchesAudioFile chapterId language) with
      | some file => some ("/audio/" ++ file)
      | none => none

/-- `checkExistingAudioVercel(chapterId, language)` (lines 34-58): with no
blob token the check is skipped without a remote call; otherwise the remote
store is listed by prefix (one remote call, recorded in the second
component) and a thrown error is caught and mapped to `none`. -/
def checkExistingAudioVercel (env : StorageEnv) (chapterId language : String) :
    Option String × Bool :=
  if env.hasBlobToken = false then
    (none, false)
  else
    match env.remoteList with
    | .error _ => (none, true)
    | .ok blobs =>
      match (blobs.filter (fun b =>
          jsStartsWith b.pathname
            ("audio/" ++ chapterId ++ "-" ++ language ++ "-"))).head? with
      | some b => (some b.url, true)
      | none => (none, true)

/-- `getAudioInfo(chapterId, language)` (lines 195-234): local cache first;
on a local hit no remote operation runs at all.  On a local miss, only the
Vercel-with-token configuration consults the remote store; a failing `head`
is caught and the info returned without size metadata.  The second
component records whether any remote call was made. -/
def getAudioInfo (env : StorageEnv) (chapterId language : String) :
    Option StoredAudioInfo × Bool :=
  match checkExistingAudioLocal env chapterId language with
  | some localUrl =>
    (some { url := localUrl, chapterId := chapterId, language := language,
                    cached := true, size := none, uploadedAt := none }, false)
  | none =>
    if env.isVercel && env.hasBlobToken then
      match checkExistingAudioVercel env chapterId language with
      | (some blobUrl, _) =>
        match env.remoteHead with
        | .ok (sz, up) =>
          (some { url := blobUrl, chapterId := chapterId, language := language,
                          cached := true, size := some sz, uploadedAt := some up }, true)
        | .error _ =>
          (some { url := blobUrl, chapterId := chapterId, language := language,
                          cached := true, size := none, uploadedAt := none }, true)
      | (none, rc) => (none, rc)
    else
      (none, false)

/-- `storeAudio(options)` (lines 143-193).  The second component records
whether any bytes were written (locally or remotely).  On a local cache hit,
or a remote hit in the Vercel-with-token configuration, the existing
artifact is returned with `cached: true` and nothing is written; a failing
`put` is fatal (line 114). -/
def storeAudio (env : StorageEnv) (chapterId language : String)
    (audioBuffer : List Nat) (mimeType : String) :
    Except String StoredAudioInfo × Bool :=
  match checkExistingAudioLocal env chapterId language with
  | some existingLocalUrl =>
    (.ok { url := existingLocalUrl, chapterId := chapterId, language := language,
                    cached := true, size := none, uploadedAt := none }, false)
  | none =>
    if env.isVercel && env.hasBlobToken then
      match (checkExistingAudioVercel env chapterId language).1 with
      | some existingBlobUrl =>
        (.ok { url := existingBlobUrl, chapterId := chapterId, language := language,
                        cached := true, size := none, uploadedAt := none }, false)
      | none =>
        match env.remotePut with
        | .error e =>
          (.error ("Failed to upload audio to Vercel Blob: " ++ e), true)
        | .ok url =>
          (.ok { url := url, chapterId := chapterId, language := language,
                          cached := false, size := some audioBuffer.length,
                          uploadedAt := some env.now }, true)
    else
      (.ok { url := "/audio/" ++ chapterId ++ "-" ++ language ++ "-"
              ++ toString env.now ++ ".wav",
                      chapterId := chapterId, language := language, cached := false,
                      size := some audioBuffer.length, uploadedAt := none }, true)

/-- C8: (a) a hit in the local filesystem cache short-circuits `getAudioInfo`
with the local artifact and performs no remote call at all; (b) a thrown
remote `list` during lookup is swallowed and the lookup behaves exactly as
if the remote store were empty ("not found"), never propagating the error. -/
theorem getAudioInfo_localFirst_and_swallow (env : StorageEnv)
    (chapterId language : String) :
    (∀ u, checkExistingAudioLocal env chapterId language = some u →
        getAudioInfo env chapterId language
          = (some { url := u, chapterId := chapterId, language := language,
                          cached := true, size := none, uploadedAt := none }, false)) ∧
      (∀ e, getAudioInfo { env with remoteList := .error e } chapterId language
          = getAudioInfo { env with remoteList := .ok [] } chapterId language) := by
  constructor
  · intro u hu
    simp [getAudioInfo, hu]
  · intro e
    have hloc : ∀ r, checkExistingAudioLocal { env with remoteList := r }
        chapterId language = checkExistingAudioLocal env chapterId language := by
      intro r
      rfl
    simp only [getAudioInfo, hloc]
    cases hl : checkExistingAudioLocal env chapterId language with
    | some u => rfl
    | none =>
      by_cases hv : env.isVercel && env.hasBlobToken
      · simp only [hv, if_pos]
        have h1 : checkExistingAudioVercel { env with remoteList := .error e }
            chapterId language = (none, env.hasBlobToken) := by
          simp only [checkExistingAudioVercel]
          by_cases ht : env.hasBlobToken = false
          · simp [ht]
          · simp only [ht, Bool.false_eq_true, if_neg, not_false_iff]
            simp only [Bool.not_eq_false] at ht
            simp [ht]
        have h2 : checkExistingAudioVercel { env with remoteList := .ok [] }
            chapterId language = (none, env.hasBlobToken) := by
          simp only [checkExistingAudioVercel]
          by_cases ht : env.hasBlobToken = false
          · simp [ht]
          · simp only [ht, Bool.false_eq_true, if_neg, not_false_iff]
            simp only [Bool.not_eq_false] at ht
            simp [ht, List.filter_nil]
        rw [h1, h2]
      · simp [hv]

/-- C8 witness: a concrete environment with a matching local file (part a)
and a failing remote list (part b). -/
theorem getAudioInfo_localFirst_and_swallow_witness :
    getAudioInfo
        { isVercel := true, hasBlobToken := true, localDirExists := true,
          localReaddir := .ok ["ch1-en-5.wav"], remoteList := .error "boom",
          remoteHead := .error "boom", remotePut := .error "boom", now := 9 }
        "ch1" "en"
      = (some { url := "/audio/ch1-en-5.wav", chapterId := "ch1",
                      language := "en", cached := true, size := none, uploadedAt := none },
         false) ∧
      getAudioInfo
          { isVercel := true, hasBlobToken := true, localDirExists := false,
            localReaddir := .ok [], remoteList := .error "boom",
            remoteHead := .error "boom", remotePut := .error "boom", now := 9 }
          "ch1" "en"
        = getAudioInfo
            { isVercel := true, hasBlobToken := true, localDirExists := false,
              localReaddir := .ok [], remoteList := .ok [],
              remoteHead := .error "boom", remotePut := .error "boom", now := 9 }
            "ch1" "en" := by
  constructor
  · exact (getAudioInfo_localFirst_and_swallow
        { isVercel := true, hasBlobToken := true, localDirExists := true,
          localReaddir := .ok ["ch1-en-5.wav"], remoteList := .error "boom",
          remoteHead := .error "boom", remotePut := .error "boom", now := 9 }
        "ch1" "en").1 "/audio/ch1-en-5.wav" (by decide)
  · exact (getAudioInfo_localFirst_and_swallow
        { isVercel := true, hasBlobToken := true, localDirExists := false,
          localReaddir := .ok [], remoteList := .ok [],
          remoteHead := .error "boom", remotePut := .error "boom", now := 9 }
        "ch1" "en").2 "boom"

/-- C10: when an artifact with the deterministic prefix already exists —
in the local cache, or (in the Vercel-with-token configuration, with no
local hit) in the remote store — `storeAudio` returns that existing
artifact's location with `cached: true` and writes nothing, so the newly
supplied bytes are never persisted. -/
theorem storeAudio_dedup_skips_write (env : StorageEnv)
    (chapterId language : String) (audioBuffer : List Nat) (mimeType : String) :
    (∀ u, checkExistingAudioLocal env chapterId language = some u →
        storeAudio env chapterId language audioBuffer mimeType
          = (.ok { url := u, chapterId := chapterId, language := language,
                   cached := true, size := none, uploadedAt := none }, false)) ∧
      (∀ bu, checkExistingAudioLocal env chapterId language = none →
        env.isVercel = true → env.hasBlobToken = true →
        (checkExistingAudioVercel env chapterId language).1 = some bu →
        storeAudio env chapterId language audioBuffer mimeType
          = (.ok { url := bu, chapterId := chapterId, language := language,
                   cached := true, size := none, uploadedAt := none }, false)) := by
  constructor
  · intro u hu
    simp [storeAudio, hu]
  · intro bu hl hv ht hb
    simp [storeAudio, hl, hv, ht, hb]

/-- C10 witness: a local cache hit (part a) and a remote-store hit with no
local file (part b), both leaving the supplied bytes unwritten. -/
theorem storeAudio_dedup_skips_write_witness :
    storeAudio
        { isVercel := false, hasBlobToken := false, localDirExists := true,
          localReaddir := .ok ["ch2-fr-7.wav"], remoteList := .ok [],
          remoteHead := .error "x", remotePut := .error "x", now := 3 }
        "ch2" "fr" [1, 2] "audio/wav"
      = (.ok { url := "/audio/ch2-fr-7.wav", chapterId := "ch2",
               language := "fr", cached := true, size := none,
               uploadedAt := none }, false) ∧
      storeAudio
          { isVercel := true, hasBlobToken := true, localDirExists := false,
            localReaddir := .ok [], remoteHead := .error "x",
            remotePut := .error "x", now := 3,
            remoteList := .ok [{ pathname := "audio/ch2-fr-8.wav",
                                 url := "https://blob/ch2-fr-8.wav" }] }
          "ch2" "fr" [1, 2] "audio/wav"
        = (.ok { url := "https://blob/ch2-fr-8.wav", chapterId := "ch2",
                 language := "fr", cached := true, size := none,
                 uploadedAt := none }, false) := by
  constructor
  · exact (storeAudio_dedup_skips_write
        { isVercel := false, hasBlobToken := false, localDirExists := true,
          localReaddir := .ok ["ch2-fr-7.wav"], remoteList := .ok [],
          remoteHead := .error "x", remotePut := .error "x", now := 3 }
        "ch2" "fr" [1, 2] "audio/wav").1 "/audio/ch2-fr-7.wav" (by decide)
  · exact (storeAudio_dedup_skips_write
        { isVercel := true, hasBlobToken := true, localDirExists := false,
          localReaddir := .ok [], remoteHead := .error "x",
          remotePut := .error "x", now := 3,
          remoteList := .ok [{ pathname := "audio/ch2-fr-8.wav",
                               url := "https://blob/ch2-fr-8.wav" }] }
        "ch2" "fr" [1, 2] "audio/wav").2 "https://blob/ch2-fr-8.wav"
        (by decide) rfl rfl (by decide)

/-! ## The generate endpoint (`POST`, the tts-async route)

The handler validates the request body, requires the provider credential,
performs the storage lookup and only on a miss creates a job and sends the
`audio/generate.requested` event that triggers the background synthesis
pipeline.  The model returns the HTTP response together with two effect
flags: whether a job record was created and whether the background event —
the only path that ever invokes the synthesis client — was sent. -/

/-- The JSON responses the handler can produce. -/
inductive TtsAsyncResponse where
  /-- 400, a required field is missing/empty. -/
  | badRequest (error : String)
  /-- 500, the provider credential is missing. -/
  | serverError (error : String)
  /-- 200 with `cached: true`, the stored artifact's location, `jobId: null`. -/
  | cachedAudio (audioUrl : String) (chapterId language : String)
  /-- 200 with the created job's id and status "pending". -/
  | jobStarted (jobId : String) (chapterId language : String)
deriving DecidableEq, Repr

/-- `POST /api/tts-async`: `(response, jobCreated, eventSent)`.  JavaScript
falsiness of a missing/empty string field is modelled by equality with
`""`. -/
def ttsAsyncPost (env : StorageEnv) (apiKeySet : Bool)
    (text language chapterId sessionId : String) (now : Nat) :
    TtsAsyncResponse × Bool × Bool :=
  if text = "" || language = "" || chapterId = "" || sessionId = "" then
    (.badRequest "Text, language, chapterId, and sessionId are required",
      false, false)
  else if text.length = 0 then
    (.badRequest "Text cannot be empty", false, false)
  else if apiKeySet = false then
    (.serverError "GEMINI_API_KEY environment variable is not set",
      false, false)
  else
    match (getAudioInfo env chapterId language).1 with
    | some audioInfo => (.cachedAudio audioInfo.url chapterId language,
        false, false)
    | none =>
      let job := createJob sessionId chapterId language now
      (.jobStarted job.id chapterId language, true, true)

/-- C3: a valid generate request for a (content-id, language) pair whose
artifact the storage lookup finds responds immediately with `cached: true`
and the existing location, creates no job record and sends no background
event, so the synthesis client is never invoked. -/
theorem ttsAsyncPost_cached_no_synthesis (env : StorageEnv)
    (text language chapterId sessionId : String) (now : Nat)
    (audioInfo : StoredAudioInfo)
    (htext : text ≠ "") (hlang : language ≠ "") (hchap : chapterId ≠ "")
    (hsess : sessionId ≠ "")
    (hhit : (getAudioInfo env chapterId language).1 = some audioInfo) :
    ttsAsyncPost env true text language chapterId sessionId now
      = (.cachedAudio audioInfo.url chapterId language, false, false) := by
  have hlen : ¬ text.length = 0 := by
    intro h0
    exact htext (String.ext (List.length_eq_zero.mp (by simpa using h0)))
  simp [ttsAsyncPost, htext, hlang, hchap, hsess, hlen, hhit]

/-- C3 witness: concrete environment whose local cache holds the artifact. -/
theorem ttsAsyncPost_cached_no_synthesis_witness :
    ttsAsyncPost
        { isVercel := false, hasBlobToken := false, localDirExists := true,
          localReaddir := .ok ["ch1-en-5.wav"], remoteList := .ok [],
          remoteHead := .error "x", remotePut := .error "x", now := 0 }
        true "hello world" "en" "ch1" "sess" 42
      = (.cachedAudio "/audio/ch1-en-5.wav" "ch1" "en", false, false) :=
  ttsAsyncPost_cached_no_synthesis
    { isVercel := false, hasBlobToken := false, localDirExists := true,
      localReaddir := .ok ["ch1-en-5.wav"], remoteList := .ok [],
      remoteHead := .error "x", remotePut := .error "x", now := 0 }
    "hello world" "en" "ch1" "sess" 42
    { url := "/audio/ch1-en-5.wav", chapterId := "ch1", language := "en",
      cached := true, size := none, uploadedAt := none }
    (by decide) (by decide) (by decide) (by decide) (by decide)
